import Mathlib

/-!
Verification of the django-tom-select widget package.

The development shallowly embeds the parts of `django_tom_select/forms.py`,
`django_tom_select/conf.py` and `django_tom_select/cache.py` that drive the
cache-mediated AJAX search protocol: the Django `Q`-expression combinators used
by `ModelTomSelectMixin.filter_queryset`, the queryset resolution of
`get_queryset`, the configuration checks of `get_search_fields` and
`HeavyTomSelectMixin.__init__`, the cache registration performed on render, and
the descriptor layout written by `ModelTomSelectMixin.set_to_cache`.

Rows are abstract: a queryset is a list of rows of some type, and an ORM lookup
paired with a value is interpreted by a matcher function
`m : String → String → ρ → Bool` (lookup, value, row) supplied as a parameter.
Whether a lookup spawns duplicate rows under a join
(`django.contrib.admin.utils.lookup_spawns_duplicates`) is likewise a
parameter `spawnsDup : String → Bool`, since it depends only on model metadata.
-/

namespace DjangoTomSelect

/-- Decidable equality for `Except`, needed to evaluate the embedded fallible
operations at concrete inputs. -/
instance [DecidableEq ε] [DecidableEq α] : DecidableEq (Except ε α) := fun x y =>
  match x, y with
  | .error a, .error b =>
    if h : a = b then isTrue (congrArg Except.error h)
    else isFalse (fun hc => h (Except.error.inj hc))
  | .ok a, .ok b =>
    if h : a = b then isTrue (congrArg Except.ok h)
    else isFalse (fun hc => h (Except.ok.inj hc))
  | .error _, .ok _ => isFalse (fun hc => Except.noConfusion hc)
  | .ok _, .error _ => isFalse (fun hc => Except.noConfusion hc)

/-- Embedding of `django.db.models.Q` trees as built by `filter_queryset`:
the empty `Q()`, a single keyword condition `Q(lookup=value)`, and the
conjunction and disjunction nodes produced by `&` and `|` on non-empty
operands. -/
inductive Q where
  | empty : Q
  | cond (lookup : String) (value : String) : Q
  | qand (a b : Q) : Q
  | qor (a b : Q) : Q
deriving DecidableEq

/-- Python truthiness of a `Q` object: `Q()` (no children) is falsy, every
other node is truthy. -/
def Q.isEmpty : Q → Bool
  | .empty => true
  | _ => false

/-- Django `Q.__and__` via `Q._combine`: an empty operand is dropped and the
other operand is returned unchanged; otherwise an AND node is built. -/
def Q.combAnd (a b : Q) : Q :=
  if b.isEmpty then a else if a.isEmpty then b else .qand a b

/-- Django `Q.__or__` via `Q._combine`: an empty operand is dropped and the
other operand is returned unchanged; otherwise an OR node is built.  Note that
dropping an empty operand is an identity for `|` even though an empty `Q`
filters nothing out, which is the source of the whitespace-only-term edge
case below. -/
def Q.combOr (a b : Q) : Q :=
  if b.isEmpty then a else if a.isEmpty then b else .qor a b

/-- Truth of a `Q` filter at a row, for a matcher interpreting each
`lookup=value` condition.  `Q()` restricts nothing, so it holds at every
row. -/
def Q.eval (m : String → String → ρ → Bool) (r : ρ) : Q → Bool
  | .empty => true
  | .cond lookup value => m lookup value r
  | .qand a b => a.eval m r && b.eval m r
  | .qor a b => a.eval m r || b.eval m r

/-- `Q(**kwargs)` for a non-empty keyword dict: the conjunction of all
`lookup=value` conditions.  The `[]` case is unreachable in the source, which
only builds this under `if dependent_fields:`. -/
def Q.ofKwargs : List (String × String) → Q
  | [] => .empty
  | [kv] => .cond kv.1 kv.2
  | kv :: rest => .qand (.cond kv.1 kv.2) (Q.ofKwargs rest)

/-- Helper for `pySplit`: walk the characters, accumulating the current
non-whitespace run (reversed) and emitting it when a whitespace character or
the end of the string is reached. -/
def pySplitAux : List Char → List Char → List String
  | [], acc => if acc.isEmpty then [] else [String.mk acc.reverse]
  | c :: cs, acc =>
    if c.isWhitespace then
      if acc.isEmpty then pySplitAux cs []
      else String.mk acc.reverse :: pySplitAux cs []
    else pySplitAux cs (c :: acc)

/-- Python `str.split()` with no separator: the maximal non-whitespace runs of
the string, so a whitespace-only string yields `[]`. -/
def pySplit (s : String) : List String :=
  pySplitAux s.data []

/-- `reduce(operator.or_, [Q(**{f: v}) for f in sf])`: left fold of `|` over
the per-field conditions, seeded with the first.  The `[]` case is unreachable
in the source because `get_search_fields` guarantees a non-empty list. -/
def orFields (sf : List String) (v : String) : Q :=
  match sf with
  | [] => .empty
  | f :: rest => rest.foldl (fun acc g => acc.combOr (.cond g v)) (.cond f v)

/-- The search part of the `select` filter built by `filter_queryset`
(forms.py lines 385-393): starting from `Q()`, AND in a per-field OR for every
whitespace token of the term, then OR in a whole-term per-field OR — executed
only under `if search_fields and term:`. -/
def searchSelect (sf : List String) (term : String) : Q :=
  if sf ≠ [] ∧ term ≠ "" then
    Q.combOr
      ((pySplit term).foldl (fun acc bit => acc.combAnd (orFields sf bit)) .empty)
      (orFields sf term)
  else .empty

/-- The full `select` filter of `filter_queryset`: the search part, ANDed with
`Q(**dependent_fields)` when the dependent dict is non-empty (lines
399-400). -/
def fullSelect (sf : List String) (term : String) (dep : List (String × String)) : Q :=
  if dep.isEmpty then searchSelect sf term
  else (searchSelect sf term).combAnd (Q.ofKwargs dep)

/-- The `use_distinct` flag of `filter_queryset` (lines 387, 394-397 and
402-405): true when a search field spawns duplicates — checked only under
`if search_fields and term:` — or when a dependent-field lookup does. -/
def computeUseDistinct (spawnsDup : String → Bool) (sf : List String) (term : String)
    (dep : List (String × String)) : Bool :=
  (if sf ≠ [] ∧ term ≠ "" then sf.any spawnsDup else false)
    || dep.any (fun kv => spawnsDup kv.1)

/-- `QuerySet.distinct()` on the row list: drop duplicate rows, keeping the
last occurrence of each. -/
def distinctList [DecidableEq ρ] : List ρ → List ρ
  | [] => []
  | r :: rest =>
    if r ∈ distinctList rest then distinctList rest else r :: distinctList rest

/-- Result of `filter_queryset`: the returned rows, and whether the
`.distinct()` deduplication pass was applied to produce them. -/
structure FilterResult (ρ : Type) where
  rows : List ρ
  usedDistinct : Bool
deriving DecidableEq

/-- `ModelTomSelectMixin.get_search_fields` (lines 433-439): return the
configured lookups, or raise `NotImplementedError` when the list is empty. -/
def get_search_fields (search_fields : List String) : Except String (List String) :=
  if search_fields ≠ [] then .ok search_fields
  else .error "must implement \x22search_fields\x22."

/-- The body of `filter_queryset` after `get_search_fields` has succeeded
(lines 385-409): build `select` and `use_distinct`, filter the queryset, and
deduplicate when required. -/
def runFilter [DecidableEq ρ] (spawnsDup : String → Bool)
    (m : String → String → ρ → Bool) (sf : List String) (term : String)
    (dep : List (String × String)) (qs : List ρ) : FilterResult ρ :=
  let select := fullSelect sf term dep
  let filtered := qs.filter (fun r => select.eval m r)
  if computeUseDistinct spawnsDup sf term dep then ⟨distinctList filtered, true⟩
  else ⟨filtered, false⟩

/-- `ModelTomSelectMixin.filter_queryset` (lines 365-409), with the queryset
passed explicitly (the source defaults it to `self.get_queryset()`): the call
to `self.get_search_fields()` raises on an empty configuration, otherwise the
filter runs. -/
def filter_queryset [DecidableEq ρ] (spawnsDup : String → Bool)
    (m : String → String → ρ → Bool) (search_fields : List String) (term : String)
    (dep : List (String × String)) (qs : List ρ) : Except String (FilterResult ρ) :=
  match get_search_fields search_fields with
  | .error e => .error e
  | .ok sf => .ok (runFilter spawnsDup m sf term dep qs)

/-- The selection predicate exactly as the specification words it, for
comparison with `filter_queryset`: every whitespace token of the term matches
some search field (AND across tokens, OR across fields), OR the whole term
matches some field. -/
def specSelect (m : String → String → ρ → Bool) (sf : List String) (term : String)
    (r : ρ) : Bool :=
  (pySplit term).all (fun tok => sf.any (fun f => m f tok r))
    || sf.any (fun f => m f term r)

/-- An unevaluated ORM query definition (`queryset.query`), kept opaque: only
its identity matters to the cache-payload claims. -/
structure QueryDef where
  descr : String
deriving DecidableEq

/-- A Django `QuerySet` object as far as the cache claims need it: the rows it
would produce when evaluated, and its unevaluated `query` attribute. -/
structure QuerySetObj (ρ : Type) where
  rows : List ρ
  query : QueryDef
deriving DecidableEq

/-- `ModelTomSelectMixin.get_queryset` (lines 411-431): use `self.queryset` if
it is not `None`, else the queryset of `self.choices` when it has one, else
`self.model._default_manager.all()` (passed here as the resolved queryset of
the optional model), else raise `NotImplementedError`. -/
def get_queryset (queryset choicesQueryset model : Option (QuerySetObj ρ)) :
    Except String (QuerySetObj ρ) :=
  match queryset with
  | some qs => .ok qs
  | none =>
    match choicesQueryset with
    | some qs => .ok qs
    | none =>
      match model with
      | some defaultManagerAll => .ok defaultManagerAll
      | none =>
        .error "is missing a QuerySet. Define model, queryset, or override get_queryset()."

/-- The shared Django cache (`django_tom_select.cache.cache`) restricted to the
two operations the package uses: `set` (overwrite) and `get`. -/
structure Cache (α : Type) where
  entries : List (String × α)
deriving DecidableEq

/-- `cache.set(key, value)`: overwrite any previous entry under the key. -/
def Cache.set (c : Cache α) (k : String) (v : α) : Cache α :=
  ⟨(k, v) :: c.entries.filter (fun e => e.1 != k)⟩

/-- `cache.get(key)`: the stored value, or a miss. -/
def Cache.get (c : Cache α) (k : String) : Option α :=
  (c.entries.find? (fun e => e.1 == k)).map Prod.snd

/-- Python truthiness of an optional string: `None` and `""` are falsy. -/
def pyTruthy : Option String → Bool
  | none => false
  | some s => s != ""

/-- `django.core.signing.dumps` on the generated identifier, modelled as an
opaque serialization that appends a signature: the claims only use that the
stored `field_id` is the signed form of the identifier. -/
def signingDumps (s : String) : String :=
  s ++ ":signed"

/-- `kwargs.pop(key, classDefault)`: the keyword value when the key was
passed, else the class attribute. -/
def resolveKw (kw cls : Option String) : Option String :=
  match kw with
  | some v => some v
  | none => cls

/-- The state of a `HeavyTomSelectMixin` widget after `__init__`: the fresh
`uuid`, its signed form `field_id`, the resolved `data_view` / `data_url`, and
the dependent-field dict. -/
structure HeavyWidget where
  uuid : String
  field_id : String
  data_view : Option String
  data_url : Option String
  dependent_fields : List (String × String)
deriving DecidableEq

/-- `HeavyTomSelectMixin.__init__` (lines 191-218): record a fresh identifier
and its signed form, resolve `data_view` / `data_url` / `dependent_fields`
from keyword arguments against the class attributes, and raise `ValueError`
when neither a truthy `data_view` nor a truthy `data_url` results. -/
def resolveDep (kw : Option (List (String × String)))
    (cls : List (String × String)) : List (String × String) :=
  match kw with
  | some d => d
  | none => cls

def heavy_init (freshUuid : String) (clsDataView clsDataUrl : Option String)
    (kwDataView kwDataUrl : Option String)
    (kwDependent : Option (List (String × String)))
    (clsDependent : List (String × String)) : Except String HeavyWidget :=
  if pyTruthy (resolveKw kwDataView clsDataView)
      || pyTruthy (resolveKw kwDataUrl clsDataUrl) then
    .ok ⟨freshUuid, signingDumps freshUuid, resolveKw kwDataView clsDataView,
      resolveKw kwDataUrl clsDataUrl, resolveDep kwDependent clsDependent⟩
  else
    .error "You must either specify \x22data_view\x22 or \x22data_url\x22."

/-- `HeavyTomSelectMixin.get_url` (lines 220-224): the fixed `data_url` when
truthy, else the reverse-resolved `data_view` (the resolver is a parameter
standing for `django.urls.reverse`). -/
def HeavyWidget.getUrl (reverse : String → String) (w : HeavyWidget) : String :=
  if pyTruthy w.data_url then w.data_url.getD ""
  else reverse (w.data_view.getD "")

/-- `HeavyTomSelectMixin._get_cache_key` (lines 252-253): the configurable
`TOM_SELECT_CACHE_PREFIX` setting followed by the widget identifier. -/
def getCacheKey (pfx : String) (w : HeavyWidget) : String :=
  pfx ++ w.uuid

/-- The descriptor stored by `HeavyTomSelectMixin.set_to_cache` (line 263):
the widget object itself together with its resolved URL. -/
structure HeavyCached where
  widget : HeavyWidget
  url : String
deriving DecidableEq

/-- `HeavyTomSelectMixin.set_to_cache` (lines 255-266). -/
def HeavyWidget.setToCache (reverse : String → String) (pfx : String)
    (w : HeavyWidget) (c : Cache HeavyCached) : Cache HeavyCached :=
  c.set (getCacheKey pfx w) ⟨w, w.getUrl reverse⟩

/-- The cache effect of `HeavyTomSelectMixin.render` (lines 246-250): the
superclass produces the markup (not modelled) and then `set_to_cache` runs
unconditionally. -/
def HeavyWidget.render (reverse : String → String) (pfx : String)
    (w : HeavyWidget) (c : Cache HeavyCached) : Cache HeavyCached :=
  w.setToCache reverse pfx c

/-- The descriptor dict written by `ModelTomSelectMixin.set_to_cache` (lines
346-363).  The `queryset` entry of the dict is the two-element list
`[queryset.none(), queryset.query]`; `queryset_none_rows` holds the rows of
the first element and `queryset_query` the second. -/
structure ModelCached (ρ : Type) where
  queryset_none_rows : List ρ
  queryset_query : QueryDef
  cls : String
  search_fields : List String
  max_results : Nat
  url : String
  dependent_fields : List (String × String)
deriving DecidableEq

/-- `ModelTomSelectMixin.set_to_cache` (lines 346-363): resolve the base
queryset via `get_queryset` and store the descriptor under the prefixed cache
key, splitting the queryset into an empty shell plus its unevaluated query. -/
def model_set_to_cache (wQueryset wChoices wModel : Option (QuerySetObj ρ))
    (clsName : String) (sf : List String) (maxResults : Nat) (url : String)
    (dep : List (String × String)) (pfx uuid : String)
    (c : Cache (ModelCached ρ)) : Except String (Cache (ModelCached ρ)) :=
  match get_queryset wQueryset wChoices wModel with
  | .error e => .error e
  | .ok qs =>
    .ok (c.set (pfx ++ uuid)
      { queryset_none_rows := [], queryset_query := qs.query, cls := clsName,
        search_fields := sf, max_results := maxResults, url := url,
        dependent_fields := dep })

/-- Response of the JSON endpoint, as far as the lifetime claim needs it: a
not-found status, or the outcome of running the search engine on the cached
descriptor. -/
inductive EndpointResponse (ρ : Type) where
  | notFound
  | found (result : Except String (FilterResult ρ))

/-- Modelled from the spec: `AutoResponseView` (imported by
`django_tom_select/urls.py` from a `views` module that is not among the
sources).  Per the spec, the endpoint looks the descriptor up in the cache by
the request identifier and responds with a not-found status when the entry is
absent (expired or never existed); otherwise it rebuilds the base query from
the descriptor and invokes the search engine. -/
def auto_response_get [DecidableEq ρ] (spawnsDup : String → Bool)
    (m : String → String → ρ → Bool) (execQuery : QueryDef → List ρ)
    (c : Cache (ModelCached ρ)) (pfx ident term : String)
    (depValues : List (String × String)) : EndpointResponse ρ :=
  match c.get (pfx ++ ident) with
  | none => .notFound
  | some d =>
    .found (filter_queryset spawnsDup m d.search_fields term depValues
      (execQuery d.queryset_query))

/-! Lemmas about the `Q` combinators and the filter pipeline. -/

theorem Q.eval_combAnd (m : String → String → ρ → Bool) (r : ρ) (a b : Q) :
    (a.combAnd b).eval m r = (a.eval m r && b.eval m r) := by
  cases a <;> cases b <;> simp [Q.combAnd, Q.isEmpty, Q.eval]

theorem Q.eval_combOr (m : String → String → ρ → Bool) (r : ρ) {a b : Q}
    (ha : a.isEmpty = false) (hb : b.isEmpty = false) :
    (a.combOr b).eval m r = (a.eval m r || b.eval m r) := by
  simp [Q.combOr, ha, hb, Q.eval]

theorem Q.isEmpty_cond (lookup v : String) : (Q.cond lookup v).isEmpty = false := rfl

theorem Q.combAnd_isEmpty (a b : Q) (hb : b.isEmpty = false) :
    (a.combAnd b).isEmpty = false := by
  cases a <;> cases b <;> simp_all [Q.combAnd, Q.isEmpty]

theorem Q.combOr_isEmpty (a b : Q) (ha : a.isEmpty = false) (hb : b.isEmpty = false) :
    (a.combOr b).isEmpty = false := by
  cases a <;> cases b <;> simp_all [Q.combOr, Q.isEmpty]

theorem orFoldl_isEmpty (v : String) (rest : List String) :
    ∀ acc : Q, acc.isEmpty = false →
      (rest.foldl (fun a g => a.combOr (.cond g v)) acc).isEmpty = false := by
  induction rest with
  | nil => intro acc ha; exact ha
  | cons g rest ih =>
    intro acc ha
    exact ih _ (Q.combOr_isEmpty acc (.cond g v) ha (Q.isEmpty_cond g v))

theorem orFoldl_eval (m : String → String → ρ → Bool) (r : ρ) (v : String)
    (rest : List String) :
    ∀ acc : Q, acc.isEmpty = false →
      (rest.foldl (fun a g => a.combOr (.cond g v)) acc).eval m r =
        (acc.eval m r || rest.any (fun f => m f v r)) := by
  induction rest with
  | nil => intro acc _; simp
  | cons g rest ih =>
    intro acc ha
    rw [List.foldl_cons,
      ih _ (Q.combOr_isEmpty acc (.cond g v) ha (Q.isEmpty_cond g v)),
      Q.eval_combOr m r ha (Q.isEmpty_cond g v)]
    simp [Q.eval, Bool.or_assoc]

theorem orFields_isEmpty (v : String) {sf : List String} (hsf : sf ≠ []) :
    (orFields sf v).isEmpty = false := by
  match sf with
  | [] => exact absurd rfl hsf
  | f :: rest =>
    show (rest.foldl (fun (a : Q) g => a.combOr (.cond g v)) (Q.cond f v)).isEmpty = false
    exact orFoldl_isEmpty v rest (Q.cond f v) (Q.isEmpty_cond f v)

theorem orFields_eval (m : String → String → ρ → Bool) (r : ρ) (v : String)
    {sf : List String} (hsf : sf ≠ []) :
    (orFields sf v).eval m r = sf.any (fun f => m f v r) := by
  match sf with
  | [] => exact absurd rfl hsf
  | f :: rest =>
    show (rest.foldl (fun (a : Q) g => a.combOr (.cond g v)) (Q.cond f v)).eval m r = _
    rw [orFoldl_eval m r v rest (Q.cond f v) (Q.isEmpty_cond f v)]
    simp [Q.eval]

theorem andFoldl_eval (m : String → String → ρ → Bool) (r : ρ) {sf : List String}
    (hsf : sf ≠ []) (bits : List String) :
    ∀ acc : Q, (bits.foldl (fun a bit => a.combAnd (orFields sf bit)) acc).eval m r =
      (acc.eval m r && bits.all (fun bit => sf.any (fun f => m f bit r))) := by
  induction bits with
  | nil => intro acc; simp
  | cons bit rest ih =>
    intro acc
    rw [List.foldl_cons, ih _, Q.eval_combAnd, orFields_eval m r bit hsf]
    simp [Bool.and_assoc]

theorem andFoldl_isEmpty {sf : List String} (hsf : sf ≠ []) (bits : List String) :
    ∀ acc : Q,
      (bits.foldl (fun a bit => a.combAnd (orFields sf bit)) acc).isEmpty = false ∨
        bits = [] := by
  induction bits with
  | nil => intro _; exact Or.inr rfl
  | cons bit rest ih =>
    intro acc
    left
    have step : (acc.combAnd (orFields sf bit)).isEmpty = false :=
      Q.combAnd_isEmpty _ _ (orFields_isEmpty bit hsf)
    rw [List.foldl_cons]
    rcases ih (acc.combAnd (orFields sf bit)) with h | h
    · exact h
    · subst h; exact step

theorem tokenFold_isEmpty {sf : List String} (hsf : sf ≠ []) {bits : List String}
    (hbits : bits ≠ []) :
    ((bits.foldl (fun (a : Q) bit => a.combAnd (orFields sf bit)) Q.empty)).isEmpty = false := by
  rcases andFoldl_isEmpty hsf bits Q.empty with h | h
  · exact h
  · exact absurd h hbits

theorem term_ne_empty_of_pySplit {term : String} (h : pySplit term ≠ []) :
    term ≠ "" := by
  intro he
  subst he
  exact h rfl

theorem searchSelect_eval (m : String → String → ρ → Bool) (r : ρ)
    {sf : List String} (hsf : sf ≠ []) {term : String}
    (htok : pySplit term ≠ []) :
    (searchSelect sf term).eval m r = specSelect m sf term r := by
  have hterm : term ≠ "" := term_ne_empty_of_pySplit htok
  unfold searchSelect
  rw [if_pos ⟨hsf, hterm⟩,
    Q.eval_combOr m r (tokenFold_isEmpty hsf htok) (orFields_isEmpty term hsf),
    orFields_eval m r term hsf, andFoldl_eval m r hsf (pySplit term) .empty]
  simp [Q.eval, specSelect]

theorem ofKwargs_eval (m : String → String → ρ → Bool) (r : ρ) :
    ∀ (dep : List (String × String)), dep ≠ [] →
      (Q.ofKwargs dep).eval m r = dep.all (fun kv => m kv.1 kv.2 r)
  | [], h => absurd rfl h
  | [kv], _ => by simp [Q.ofKwargs, Q.eval]
  | kv :: kv2 :: rest, _ => by
    have ih := ofKwargs_eval m r (kv2 :: rest) (List.cons_ne_nil _ _)
    show (Q.qand (.cond kv.1 kv.2) (Q.ofKwargs (kv2 :: rest))).eval m r = _
    simp [Q.eval, ih]

theorem mem_distinctList [DecidableEq ρ] (l : List ρ) :
    ∀ a : ρ, a ∈ distinctList l ↔ a ∈ l := by
  induction l with
  | nil => intro a; simp [distinctList]
  | cons r rest ih =>
    intro a
    simp only [distinctList]
    by_cases h : r ∈ distinctList rest
    · rw [if_pos h, ih a]
      constructor
      · intro ha; exact List.mem_cons.mpr (Or.inr ha)
      · intro ha
        rcases List.mem_cons.mp ha with h1 | h1
        · exact h1 ▸ (ih r).mp h
        · exact h1
    · rw [if_neg h]
      simp [List.mem_cons, ih a]

theorem isEmpty_eq_false_of_ne_nil {dep : List (String × String)} (h : dep ≠ []) :
    dep.isEmpty = false := by
  cases dep with
  | nil => exact absurd rfl h
  | cons a l => rfl

theorem runFilter_usedDistinct [DecidableEq ρ] (spawnsDup : String → Bool)
    (m : String → String → ρ → Bool) (sf : List String) (term : String)
    (dep : List (String × String)) (qs : List ρ) :
    (runFilter spawnsDup m sf term dep qs).usedDistinct =
      computeUseDistinct spawnsDup sf term dep := by
  unfold runFilter
  cases h : computeUseDistinct spawnsDup sf term dep <;> simp [h]

theorem runFilter_mem_rows [DecidableEq ρ] (spawnsDup : String → Bool)
    (m : String → String → ρ → Bool) (sf : List String) (term : String)
    (dep : List (String × String)) (qs : List ρ) (r : ρ) :
    r ∈ (runFilter spawnsDup m sf term dep qs).rows ↔
      (r ∈ qs ∧ (fullSelect sf term dep).eval m r = true) := by
  unfold runFilter
  cases h : computeUseDistinct spawnsDup sf term dep <;>
    simp [h, mem_distinctList, List.mem_filter]

theorem filter_queryset_ok_iff [DecidableEq ρ] (spawnsDup : String → Bool)
    (m : String → String → ρ → Bool) (search_fields : List String) (term : String)
    (dep : List (String × String)) (qs : List ρ) (res : FilterResult ρ) :
    filter_queryset spawnsDup m search_fields term dep qs = .ok res ↔
      (search_fields ≠ [] ∧ res = runFilter spawnsDup m search_fields term dep qs) := by
  unfold filter_queryset get_search_fields
  by_cases h : search_fields = []
  · subst h; simp
  · simp [h, eq_comm]

theorem Cache.get_set_same (c : Cache α) (k : String) (v : α) :
    (c.set k v).get k = some v := by
  simp [Cache.get, Cache.set, List.find?_cons]

theorem Cache.set_set (c : Cache α) (k : String) (v : α) :
    (c.set k v).set k v = c.set k v := by
  unfold Cache.set
  congr 1
  rw [List.filter_cons]
  simp [List.filter_filter]

/-! Concrete fixtures used by the counterexamples and witnesses. -/

/-- Equality matcher used by the concrete instances: every lookup tests the
row (a string) for literal equality with the value. -/
def eqMatch : String → String → String → Bool := fun _ v r => r == v

/-- A concrete Heavy widget: identifier `"u1"`, a fixed data URL, no
dependent fields. -/
def cexHeavyWidget : HeavyWidget :=
  ⟨"u1", signingDumps "u1", none, some "/data", []⟩

/-- A concrete stand-in for `django.urls.reverse`. -/
def cexReverse : String → String := fun viewName => "/reversed/" ++ viewName

/-! Claim theorems. -/

/-- Claim C1, counterexample: the claim quantifies over every non-empty term,
but for the whitespace-only term `" "` (non-empty, zero whitespace tokens) the
claimed predicate degenerates to a vacuous AND and selects every row, while
`filter_queryset` — whose `select` is still the empty `Q()` after the token
loop, so that the final `|=` installs the whole-term match as the only
condition — selects only rows matching the literal term.  With search_fields
`["f"]`, term `" "` and the single row `"abc"`, the code returns no rows
although the claimed predicate holds at `"abc"`. -/
theorem C1_counterexample :
    ¬ (∀ res, filter_queryset (fun _ => false) eqMatch ["f"] " " [] ["abc"] = .ok res →
        ∀ r ∈ (["abc"] : List String),
          (r ∈ res.rows ↔ specSelect eqMatch ["f"] " " r = true)) := by
  intro h
  have hmem := (h ⟨[], false⟩ (by decide) "abc" (by decide)).mpr (by decide)
  exact absurd hmem (by decide)

/-- Claim C1, amended: for every widget with non-empty search_fields and a
term containing at least one non-whitespace character (equivalently, whose
whitespace-split token list is non-empty), `filter_queryset` with no
dependent-field values selects exactly the rows satisfying the claimed
predicate: every token matches at least one search field (AND across tokens,
OR across fields per token), OR the whole term matches some field. -/
theorem C1_amended [DecidableEq ρ] (spawnsDup : String → Bool)
    (m : String → String → ρ → Bool) (sf : List String) (term : String)
    (qs : List ρ) (res : FilterResult ρ) (r : ρ)
    (htok : pySplit term ≠ [])
    (hok : filter_queryset spawnsDup m sf term [] qs = .ok res) :
    r ∈ res.rows ↔ (r ∈ qs ∧ specSelect m sf term r = true) := by
  obtain ⟨hsf, hres⟩ :=
    (filter_queryset_ok_iff spawnsDup m sf term [] qs res).mp hok
  subst hres
  rw [runFilter_mem_rows]
  have hfull : fullSelect sf term [] = searchSelect sf term := by
    simp [fullSelect]
  rw [hfull, searchSelect_eval m r hsf htok]

/-- Witness for C1_amended at search_fields `["t"]`, term `"b c"` and rows
`["b", "z", "b c"]`: only the exact-phrase row `"b c"` is selected. -/
theorem C1_amended_witness :
    pySplit "b c" ≠ [] ∧
    filter_queryset (fun _ => false) eqMatch ["t"] "b c" [] ["b", "z", "b c"] =
      .ok ⟨["b c"], false⟩ ∧
    ("b c" ∈ (FilterResult.mk ["b c"] false).rows ↔
      ("b c" ∈ (["b", "z", "b c"] : List String) ∧
        specSelect eqMatch ["t"] "b c" "b c" = true)) :=
  ⟨by decide, by decide,
    C1_amended (fun _ => false) eqMatch ["t"] "b c" ["b", "z", "b c"]
      ⟨["b c"], false⟩ "b c" (by decide) (by decide)⟩

/-- Claim C2: `filter_queryset` applies the `.distinct()` deduplication pass
if and only if some field lookup used — a search field, when a non-empty term
is given, or a dependent field — spawns duplicate rows under a join; and when
no deduplication pass is applied the returned rows are exactly those of the
plain filter by the built `select` condition. -/
theorem C2_use_distinct_iff [DecidableEq ρ] (spawnsDup : String → Bool)
    (m : String → String → ρ → Bool) (sf : List String) (term : String)
    (dep : List (String × String)) (qs : List ρ) (res : FilterResult ρ)
    (hok : filter_queryset spawnsDup m sf term dep qs = .ok res) :
    (res.usedDistinct = true ↔
      ((term ≠ "" ∧ ∃ f ∈ sf, spawnsDup f = true) ∨
        (∃ kv ∈ dep, spawnsDup kv.1 = true))) ∧
    (res.usedDistinct = false →
      res.rows = qs.filter (fun r => (fullSelect sf term dep).eval m r)) := by
  obtain ⟨hsf, hres⟩ :=
    (filter_queryset_ok_iff spawnsDup m sf term dep qs res).mp hok
  subst hres
  constructor
  · rw [runFilter_usedDistinct]
    unfold computeUseDistinct
    by_cases hterm : term = ""
    · subst hterm
      simp [List.any_eq_true]
    · simp [hsf, hterm, List.any_eq_true]
  · intro hfalse
    have hud : computeUseDistinct spawnsDup sf term dep = false := by
      rw [← runFilter_usedDistinct spawnsDup m sf term dep qs]
      exact hfalse
    simp [runFilter, hud]

/-- Witness for C2_use_distinct_iff: a duplicate-spawning search field with a
non-empty term forces the deduplication pass. -/
theorem C2_witness :
    filter_queryset (fun _ => true) eqMatch ["a"] "x" [] ["x", "y"] =
      .ok ⟨["x"], true⟩ ∧
    (((FilterResult.mk ["x"] true : FilterResult String).usedDistinct = true ↔
      (("x" ≠ "" ∧ ∃ f ∈ (["a"] : List String), (fun _ => true) f = true) ∨
        (∃ kv ∈ ([] : List (String × String)), (fun _ => true) kv.1 = true))) ∧
    ((FilterResult.mk ["x"] true : FilterResult String).usedDistinct = false →
      (FilterResult.mk ["x"] true).rows =
        (["x", "y"] : List String).filter
          (fun r => (fullSelect ["a"] "x" []).eval eqMatch r))) :=
  ⟨by decide,
    C2_use_distinct_iff (fun _ => true) eqMatch ["a"] "x" [] ["x", "y"]
      ⟨["x"], true⟩ (by decide)⟩

/-- Claim C3: the dependent-field equality constraints are ANDed with the
free-text filter — every returned row satisfies every dependent-field
equality, and a dependent value matched by no row of the base queryset makes
the result empty regardless of the term. -/
theorem C3_dependent_and [DecidableEq ρ] (spawnsDup : String → Bool)
    (m : String → String → ρ → Bool) (sf : List String) (term : String)
    (dep : List (String × String)) (qs : List ρ) (res : FilterResult ρ)
    (hok : filter_queryset spawnsDup m sf term dep qs = .ok res) :
    (∀ r ∈ res.rows, ∀ kv ∈ dep, m kv.1 kv.2 r = true) ∧
    ((∃ kv ∈ dep, ∀ r ∈ qs, m kv.1 kv.2 r = false) → res.rows = []) := by
  obtain ⟨hsf, hres⟩ :=
    (filter_queryset_ok_iff spawnsDup m sf term dep qs res).mp hok
  subst hres
  have main : ∀ (kv : String × String), kv ∈ dep →
      ∀ r ∈ (runFilter spawnsDup m sf term dep qs).rows, m kv.1 kv.2 r = true := by
    intro kv hkv r hr
    have hdep : dep ≠ [] := by
      intro h
      subst h
      exact absurd hkv (List.not_mem_nil kv)
    have heval :=
      ((runFilter_mem_rows spawnsDup m sf term dep qs r).mp hr).2
    have hfull : fullSelect sf term dep =
        (searchSelect sf term).combAnd (Q.ofKwargs dep) := by
      simp [fullSelect, isEmpty_eq_false_of_ne_nil hdep]
    rw [hfull, Q.eval_combAnd] at heval
    have h2 := (Bool.and_eq_true _ _).mp heval |>.2
    rw [ofKwargs_eval m r dep hdep] at h2
    exact List.all_eq_true.mp h2 kv hkv
  constructor
  · intro r hr kv hkv
    exact main kv hkv r hr
  · rintro ⟨kv, hkv, hall⟩
    rw [List.eq_nil_iff_forall_not_mem]
    intro r hr
    have hmem :=
      ((runFilter_mem_rows spawnsDup m sf term dep qs r).mp hr).1
    have := main kv hkv r hr
    rw [hall r hmem] at this
    exact Bool.false_ne_true this

/-- Witness for C3_dependent_and: a dependent value matching no row empties
the result even though the term matches the only row. -/
theorem C3_witness :
    filter_queryset (fun _ => false) eqMatch ["a"] "x" [("city", "nope")] ["x"] =
      .ok ⟨[], false⟩ ∧
    ((∀ r ∈ (FilterResult.mk ([] : List String) false).rows,
        ∀ kv ∈ ([("city", "nope")] : List (String × String)),
          eqMatch kv.1 kv.2 r = true) ∧
    ((∃ kv ∈ ([("city", "nope")] : List (String × String)),
        ∀ r ∈ (["x"] : List String), eqMatch kv.1 kv.2 r = false) →
      (FilterResult.mk ([] : List String) false).rows = [])) :=
  ⟨by decide,
    C3_dependent_and (fun _ => false) eqMatch ["a"] "x" [("city", "nope")] ["x"]
      ⟨[], false⟩ (by decide)⟩

/-- Claim C10: with non-empty search_fields, an empty term and no
dependent-field values, `filter_queryset` returns every row of the base
queryset — the filter condition is the empty `Q()` — and applies no
deduplication pass. -/
theorem C10_empty_term [DecidableEq ρ] (spawnsDup : String → Bool)
    (m : String → String → ρ → Bool) (sf : List String) (qs : List ρ)
    (res : FilterResult ρ)
    (hok : filter_queryset spawnsDup m sf "" [] qs = .ok res) :
    res.rows = qs ∧ res.usedDistinct = false := by
  obtain ⟨hsf, hres⟩ :=
    (filter_queryset_ok_iff spawnsDup m sf "" [] qs res).mp hok
  subst hres
  have hud : computeUseDistinct spawnsDup sf "" [] = false := by
    simp [computeUseDistinct]
  refine ⟨?_, by rw [runFilter_usedDistinct]; exact hud⟩
  unfold runFilter
  simp [hud, fullSelect, searchSelect, Q.eval]

/-- Witness for C10_empty_term: the empty term returns the whole base
queryset. -/
theorem C10_witness :
    filter_queryset (fun _ => false) eqMatch ["a"] "" [] ["p", "q"] =
      .ok ⟨["p", "q"], false⟩ ∧
    ((FilterResult.mk (["p", "q"] : List String) false).rows = ["p", "q"] ∧
      (FilterResult.mk (["p", "q"] : List String) false).usedDistinct = false) :=
  ⟨by decide,
    C10_empty_term (fun _ => false) eqMatch ["a"] ["p", "q"]
      ⟨["p", "q"], false⟩ (by decide)⟩

/-- Claim C8: with an empty search_fields configuration, invoking the
search/filter engine raises the explicit `NotImplementedError` of
`get_search_fields` instead of silently returning an empty result set. -/
theorem C8_empty_search_fields [DecidableEq ρ] (spawnsDup : String → Bool)
    (m : String → String → ρ → Bool) (term : String)
    (dep : List (String × String)) (qs : List ρ) :
    filter_queryset spawnsDup m [] term dep qs =
      .error "must implement \x22search_fields\x22." := rfl

/-- Claim C9: with `queryset` and `model` both absent (and no queryset
available from the choices either), `get_queryset` raises the explicit
`NotImplementedError`. -/
theorem C9_unresolvable_queryset (ρ : Type) :
    get_queryset (ρ := ρ) none none none =
      .error
        "is missing a QuerySet. Define model, queryset, or override get_queryset()." :=
  rfl

/-- Claim C7: constructing a Heavy widget fails with the `ValueError` of
`__init__` exactly when neither a truthy `data_view` nor a truthy `data_url`
results from the keyword arguments and class attributes, and succeeds exactly
when either does — the check happens at construction time. -/
theorem C7_init_requires_url (freshUuid : String) (cdv cdu kdv kdu : Option String)
    (kdep : Option (List (String × String))) (cdep : List (String × String)) :
    ((∃ e, heavy_init freshUuid cdv cdu kdv kdu kdep cdep = .error e) ↔
      (pyTruthy (resolveKw kdv cdv) = false ∧ pyTruthy (resolveKw kdu cdu) = false)) ∧
    ((∃ w, heavy_init freshUuid cdv cdu kdv kdu kdep cdep = .ok w) ↔
      (pyTruthy (resolveKw kdv cdv) = true ∨ pyTruthy (resolveKw kdu cdu) = true)) := by
  unfold heavy_init
  cases hdv : pyTruthy (resolveKw kdv cdv) <;>
    cases hdu : pyTruthy (resolveKw kdu cdu) <;>
      simp [hdv, hdu]

/-- Claim C4, counterexample: the claim asserts that each render generates a
fresh random identifier, which would make two renders of the same widget from
an empty cache write under two distinct keys (two entries) — but the
identifier is generated once in `__init__`, so the second render overwrites
the first entry: the cache holds one entry and the second render is a no-op
relative to the first. -/
theorem C4_counterexample :
    ¬ ((cexHeavyWidget.render cexReverse "tomselect_"
          (cexHeavyWidget.render cexReverse "tomselect_" ⟨[]⟩)).entries.length = 2) ∧
    cexHeavyWidget.render cexReverse "tomselect_"
        (cexHeavyWidget.render cexReverse "tomselect_" ⟨[]⟩) =
      cexHeavyWidget.render cexReverse "tomselect_" ⟨[]⟩ :=
  ⟨by decide, by decide⟩

/-- Claim C4, amended: the fresh random identifier is generated and signed
when the Heavy widget is constructed; every render then stores the descriptor
under the cache key derived from the configurable prefix plus that identifier,
so every render performs the cache write, and repeated renders of the same
widget overwrite the same key (idempotent, not additive). -/
theorem C4_amended (freshUuid : String) (cdv cdu kdv kdu : Option String)
    (kdep : Option (List (String × String))) (cdep : List (String × String))
    (w : HeavyWidget)
    (hok : heavy_init freshUuid cdv cdu kdv kdu kdep cdep = .ok w)
    (reverse : String → String) (pfx : String) (c : Cache HeavyCached) :
    w.uuid = freshUuid ∧ w.field_id = signingDumps freshUuid ∧
    w.render reverse pfx c = c.set (pfx ++ freshUuid) ⟨w, w.getUrl reverse⟩ ∧
    w.render reverse pfx (w.render reverse pfx c) = w.render reverse pfx c := by
  unfold heavy_init at hok
  by_cases hcond : (pyTruthy (resolveKw kdv cdv)
      || pyTruthy (resolveKw kdu cdu)) = true
  · rw [if_pos hcond] at hok
    obtain rfl := Except.ok.inj hok
    exact ⟨rfl, rfl, rfl, Cache.set_set c _ _⟩
  · rw [if_neg hcond] at hok
    exact absurd hok (by simp)

/-- Witness for C4_amended at a concretely constructed widget, prefix and
empty cache. -/
theorem C4_amended_witness :
    heavy_init "u1" none none (some "dv") none none [] =
      .ok ⟨"u1", signingDumps "u1", some "dv", none, []⟩ ∧
    ((HeavyWidget.mk "u1" (signingDumps "u1") (some "dv") none []).uuid = "u1" ∧
      (HeavyWidget.mk "u1" (signingDumps "u1") (some "dv") none []).field_id =
        signingDumps "u1" ∧
      (HeavyWidget.mk "u1" (signingDumps "u1") (some "dv") none []).render
          cexReverse "tomselect_" ⟨[]⟩ =
        (Cache.mk []).set ("tomselect_" ++ "u1")
          ⟨HeavyWidget.mk "u1" (signingDumps "u1") (some "dv") none [],
            (HeavyWidget.mk "u1" (signingDumps "u1") (some "dv") none []).getUrl
              cexReverse⟩ ∧
      (HeavyWidget.mk "u1" (signingDumps "u1") (some "dv") none []).render
          cexReverse "tomselect_"
          ((HeavyWidget.mk "u1" (signingDumps "u1") (some "dv") none []).render
            cexReverse "tomselect_" ⟨[]⟩) =
        (HeavyWidget.mk "u1" (signingDumps "u1") (some "dv") none []).render
          cexReverse "tomselect_" ⟨[]⟩) :=
  ⟨by decide,
    C4_amended "u1" none none (some "dv") none none []
      ⟨"u1", signingDumps "u1", some "dv", none, []⟩ (by decide)
      cexReverse "tomselect_" ⟨[]⟩⟩

/-- Claim C5: a request to the response endpoint whose identifier has no
descriptor in the cache is answered with the not-found status, whatever the
search term.  The endpoint itself is modelled from the spec, its module not
being among the sources. -/
theorem C5_cache_miss_not_found [DecidableEq ρ] (spawnsDup : String → Bool)
    (m : String → String → ρ → Bool) (execQuery : QueryDef → List ρ)
    (c : Cache (ModelCached ρ)) (pfx ident term : String)
    (depValues : List (String × String))
    (hmiss : c.get (pfx ++ ident) = none) :
    auto_response_get spawnsDup m execQuery c pfx ident term depValues =
      .notFound := by
  unfold auto_response_get
  rw [hmiss]

/-- Witness for C5_cache_miss_not_found at the empty cache. -/
theorem C5_witness :
    (Cache.mk ([] : List (String × ModelCached String))).get ("tomselect_" ++ "u1") =
      none ∧
    auto_response_get (fun _ => false) eqMatch (fun _ => [])
        (Cache.mk []) "tomselect_" "u1" "some term" [] = .notFound :=
  ⟨rfl,
    C5_cache_miss_not_found (fun _ => false) eqMatch (fun _ => [])
      (Cache.mk []) "tomselect_" "u1" "some term" [] rfl⟩

/-- Claim C6: every cache write performed by a Model widget stores the base
query split into an empty queryset shell plus the unevaluated query object of
the resolved base queryset — never the materialized rows. -/
theorem C6_cache_stores_query (wq wc wm : Option (QuerySetObj ρ))
    (clsName : String) (sf : List String) (maxResults : Nat) (url : String)
    (dep : List (String × String)) (pfx uuid : String)
    (c cNew : Cache (ModelCached ρ))
    (hok : model_set_to_cache wq wc wm clsName sf maxResults url dep pfx uuid c =
      .ok cNew) :
    ∃ qs : QuerySetObj ρ, get_queryset wq wc wm = .ok qs ∧
      cNew.get (pfx ++ uuid) = some
        { queryset_none_rows := [], queryset_query := qs.query, cls := clsName,
          search_fields := sf, max_results := maxResults, url := url,
          dependent_fields := dep } := by
  unfold model_set_to_cache at hok
  split at hok
  · exact absurd hok (by simp)
  · rename_i qs heq
    cases hok
    exact ⟨qs, heq, Cache.get_set_same c _ _⟩

/-- A concrete base queryset for the Model cache claims: one materialized row
and an opaque query object. -/
def cexModelQS : QuerySetObj String := ⟨["row1"], ⟨"base-query"⟩⟩

/-- The descriptor the cache is expected to hold for `cexModelQS`. -/
def cexModelCached : ModelCached String :=
  { queryset_none_rows := [], queryset_query := ⟨"base-query"⟩, cls := "MyWidget",
    search_fields := ["title"], max_results := 25, url := "/url",
    dependent_fields := [] }

/-- The cache after registering `cexModelQS` under `"tomselect_u1"`. -/
def cexModelCacheAfter : Cache (ModelCached String) :=
  (Cache.mk []).set ("tomselect_" ++ "u1") cexModelCached

/-- Witness for C6_cache_stores_query: the resolved queryset has a non-empty
row list, yet the cached descriptor stores no rows, only the query object. -/
theorem C6_witness :
    model_set_to_cache (some cexModelQS) none none "MyWidget" ["title"] 25 "/url"
        [] "tomselect_" "u1" (Cache.mk []) = .ok cexModelCacheAfter ∧
    (∃ qs : QuerySetObj String,
      get_queryset (some cexModelQS) none none = .ok qs ∧
      cexModelCacheAfter.get ("tomselect_" ++ "u1") = some
        { queryset_none_rows := [], queryset_query := qs.query, cls := "MyWidget",
          search_fields := ["title"], max_results := 25, url := "/url",
          dependent_fields := [] }) :=
  ⟨by decide,
    C6_cache_stores_query (some cexModelQS) none none "MyWidget" ["title"] 25
      "/url" [] "tomselect_" "u1" (Cache.mk []) cexModelCacheAfter (by decide)⟩

end DjangoTomSelect
